import Mathlib

/-! Verification of `reddit_persona.py` (Reddit Persona Generator).

Shallow embedding: strings are Lean `String`s manipulated through their
character lists (`String.data`), which matches Python's code-point-based
`len` and slicing.  External effects (the Reddit API, the Groq chat API,
the filesystem, the wall clock) are passed in explicitly as parameters.
-/

/-- Python expression `len(s)`: the number of code points of `s`. -/
def pyLen (s : String) : Nat := s.data.length

/-- Python slice `s[:n]`: the first `n` code points of `s`. -/
def pySlice (s : String) (n : Nat) : String := String.mk (s.data.take n)

/-- Python truthiness of a `str` value: `True` iff it is non-empty. -/
def strTruthy (s : String) : Bool := decide (s.data ≠ [])

/-- Python truthiness of an optional `str` value: `None` and the empty
string are falsy, every non-empty string is truthy. -/
def optTruthy : Option String → Bool
  | none => false
  | some s => strTruthy s

/-- Python call `sep.join(items)`: items concatenated with `sep` between
consecutive items. -/
def joinSep (sep : String) : List String → String
  | [] => ""
  | [s] => s
  | s :: rest => s ++ sep ++ joinSep sep rest

/-! Section: profile resolver (`RedditScraper.extract_username_from_url`)

The three regexes in the source all have the shape
literal-prefix followed by a greedy capturing group `([^/]+)`.
`reSearchCapture lit s` models `re.search` of such a regex:
it finds the leftmost position where the literal `lit` occurs followed by
at least one non-`/` character, and returns the (greedy) capture — the
maximal run of non-`/` characters right after the literal. -/

def reSearchCapture (lit : List Char) : List Char → Option (List Char)
  | [] => none
  | c :: rest =>
      if lit.isPrefixOf (c :: rest) then
        let captured := ((c :: rest).drop lit.length).takeWhile (fun ch => ch ≠ '/')
        if captured.isEmpty then reSearchCapture lit rest else some captured
      else reSearchCapture lit rest

/-- The literal prefixes of the three patterns
`reddit\.com/u/([^/]+)`, `reddit\.com/user/([^/]+)`,
`reddit\.com/users/([^/]+)`, in source order. -/
def url_patterns : List (List Char) :=
  ["reddit.com/u/".data, "reddit.com/user/".data, "reddit.com/users/".data]

/-- The `for pattern in patterns` loop of the source: first successful
search wins. -/
def extractLoop : List (List Char) → List Char → Option (List Char)
  | [], _ => none
  | p :: ps, s =>
      match reSearchCapture p s with
      | some n => some n
      | none => extractLoop ps s

/-- Model of `RedditScraper.extract_username_from_url`: returns the first pattern's
capture, or raises `ValueError` (modelled as `Except.error`). -/
def extract_username_from_url (url : String) : Except String String :=
  match extractLoop url_patterns url.data with
  | some n => .ok (String.mk n)
  | none => .error ("Invalid Reddit URL format: " ++ url)

/-- Modelled from the spec's words (§4.1): try `/u/`, then `/user/`, then
`/users/`, in that fixed priority order, returning the first
capturing-group match, failing otherwise.  Compared with
`extract_username_from_url` in claim C1. -/
def resolveSpec (url : String) : Except String String :=
  match reSearchCapture "reddit.com/u/".data url.data with
  | some n => .ok (String.mk n)
  | none =>
      match reSearchCapture "reddit.com/user/".data url.data with
      | some n => .ok (String.mk n)
      | none =>
          match reSearchCapture "reddit.com/users/".data url.data with
          | some n => .ok (String.mk n)
          | none => .error ("Invalid Reddit URL format: " ++ url)

/-! Section: data model

The dict records built by `RedditScraper.scrape_user_data`.  `selftext`
is `Option String` since the untyped dict could in principle hold `None`
there; Python truthiness treats `None` and `""` alike. -/

structure RPost where
  id : String
  title : String
  selftext : Option String
  subreddit : String
  score : Int
  created_utc : Nat
  url : String
deriving Repr, DecidableEq

structure RComment where
  id : String
  body : String
  subreddit : String
  score : Int
  created_utc : Nat
  url : String
deriving Repr, DecidableEq

/-- The dict returned by `scrape_user_data`. -/
structure UserDataset where
  username : String
  posts : List RPost
  comments : List RComment
  total_posts : Nat
  total_comments : Nat
deriving Repr, DecidableEq

/-! Section: content collector (`RedditScraper.scrape_user_data`)

The three external interactions are passed in explicitly:
`lookup` is the user-existence check (accessing `user.id`), and
`fetchPosts` / `fetchComments` are the listings
`user.submissions.new(limit=limit)` / `user.comments.new(limit=limit)`,
each modelled as an atomic external call that either yields its already
limit-capped record list or raises. -/

def scrape_user_data (username : String)
    (lookup : Except String Unit)
    (fetchPosts : Except String (List RPost))
    (fetchComments : Except String (List RComment)) :
    Except String UserDataset :=
  match lookup with
  | .error e => .error ("Error scraping user data: " ++ e)
  | .ok _ =>
      let posts : List RPost :=
        match fetchPosts with
        | .ok ps => ps
        | .error _ => []
      let comments : List RComment :=
        match fetchComments with
        | .ok cs => cs
        | .error _ => []
      .ok ⟨username, posts, comments, posts.length, comments.length⟩

/-! Section: excerpt construction (`PersonaGenerator._prepare_content`) -/

/-- The post branch of the content loop body:
`some` entry appended to `content`, or `none` when the post is skipped. -/
def postEntry (p : RPost) : Option String :=
  if strTruthy p.title && optTruthy p.selftext then
    some ("POST [" ++ p.id ++ "]: " ++ p.title ++ " - " ++ pySlice (p.selftext.getD "") 500)
  else if strTruthy p.title then
    some ("POST [" ++ p.id ++ "]: " ++ p.title)
  else
    none

/-- The comment branch of the content loop body. -/
def commentEntry (c : RComment) : Option String :=
  if strTruthy c.body && decide (10 < pyLen c.body) then
    some ("COMMENT [" ++ c.id ++ "]: " ++ pySlice c.body 500)
  else
    none

/-- One iteration of a content loop: append the entry for `x`
to the accumulated `content` list, or keep it unchanged when `x` is
skipped. -/
def appendEntry {α β : Type} (f : α → Option β) (acc : List β) (x : α) : List β :=
  match f x with
  | some s => acc ++ [s]
  | none => acc

/-- Model of `PersonaGenerator._prepare_content`: loop over the first 50 posts,
then the first 50 comments, appending entries to `content`, finally
`"\n\n".join(content)`. -/
def prepare_content (ud : UserDataset) : String :=
  let content : List String := []
  let content := (ud.posts.take 50).foldl (appendEntry postEntry) content
  let content := (ud.comments.take 50).foldl (appendEntry commentEntry) content
  joinSep "\n\n" content


/-! Section: persona synthesizer (`PersonaGenerator.generate_persona`) -/

structure ChatMessage where
  role : String
  content : String
deriving Repr, DecidableEq

/-- The argument record of `client.chat.completions.create`. -/
structure ChatRequest where
  model : String
  messages : List ChatMessage
  max_tokens : Nat
  temperature : ℚ
deriving Repr, DecidableEq

/-- The fixed system-role message of the source. -/
def systemMessage : String :=
  "You are an expert digital analyst specializing in creating detailed user personas from social media data. You analyze text patterns, communication styles, and behavioral indicators to build comprehensive profiles."

/-- The f-string prompt template of `generate_persona`, with the exact
whitespace of the source (every template line is indented by 8 spaces,
and the visually blank lines consist of 8 spaces). -/
def buildPrompt (ud : UserDataset) : String :=
  "\n        Analyze the following Reddit user data and create a comprehensive persona profile.\n        \n        User: " ++ ud.username
  ++ "\n        Total Posts: " ++ toString ud.total_posts
  ++ "\n        Total Comments: " ++ toString ud.total_comments
  ++ "\n        \n        Content to analyze:\n        " ++ prepare_content ud
  ++ "\n        \n        Please create a persona with the following structure:\n        \n        Reddit Username: " ++ ud.username
  ++ "\n        --------------------------------------\n        \n        1️⃣ Interests / Hobbies:\n        - List specific interests with citations\n        - Format: Interest (Cited from: \"exact quote\" - Post/Comment ID)\n        \n        2️⃣ Personality Traits:\n        - List personality traits with evidence\n        - Format: Trait (Cited from: \"exact quote\" - Post/Comment ID)\n        \n        3️⃣ Writing Style / Tone:\n        - Describe communication style\n        - Format: Style element (Cited from: \"exact quote\" - Post/Comment ID)\n        \n        4️⃣ Values / Beliefs:\n        - Identify core values and beliefs\n        - Format: Value/Belief (Cited from: \"exact quote\" - Post/Comment ID)\n        \n        5️⃣ Behavior on Reddit:\n        - Analyze Reddit usage patterns\n        - Format: Behavior (Cited from: \"exact quote\" - Post/Comment ID)\n        \n        Rules:\n        - Use exact quotes from the content\n        - Include specific post/comment IDs\n        - Keep quotes concise but meaningful\n        - Provide specific evidence for each point\n        - Be objective and professional\n        "

/-- Model of `PersonaGenerator.generate_persona`.  The Groq client is the external
parameter `api`, mapping the request record to either the list of choice
texts or an error.  The second component of the result is the list of
requests submitted during the call (the source submits exactly one).
On an API error — or an empty choice list, where `choices[0]` raises
`IndexError` inside the same `try` — the exception is wrapped as
`Error generating persona: ...`; no retry. -/
def generate_persona (model : String) (ud : UserDataset)
    (api : ChatRequest → Except String (List String)) :
    Except String String × List ChatRequest :=
  let prompt := buildPrompt ud
  let req : ChatRequest :=
    ⟨model, [⟨"system", systemMessage⟩, ⟨"user", prompt⟩], 4000, (3 : ℚ)/10⟩
  match api req with
  | .error e => (.error ("Error generating persona: " ++ e), [req])
  | .ok [] => (.error "Error generating persona: list index out of range", [req])
  | .ok (c :: _) => (.ok c, [req])

/-! Section: output writer (`PersonaFileManager`) -/

/-- Value of `datetime.now()`; the `datetime` type guarantees
`1 ≤ year ≤ 9999`, `1 ≤ month ≤ 12`, `1 ≤ day ≤ 31`, `hour ≤ 23`,
`minute ≤ 59`, `second ≤ 59`. -/
structure PyDateTime where
  year : Nat
  month : Nat
  day : Nat
  hour : Nat
  minute : Nat
  second : Nat
deriving Repr, DecidableEq

/-- The decimal digit character of `n % 10`. -/
def digitChar (n : Nat) : Char := Char.ofNat (48 + n % 10)

/-- Model of `now.strftime('%Y-%m-%d %H:%M:%S')`: every field zero-padded
(`%Y` to 4 digits, the rest to 2), written digit by digit; for the valid
field ranges of `datetime` this agrees with CPython's `strftime`. -/
def strftimeYmdHMS (t : PyDateTime) : String :=
  String.mk
    [digitChar (t.year / 1000), digitChar (t.year / 100), digitChar (t.year / 10), digitChar t.year, '-',
     digitChar (t.month / 10), digitChar t.month, '-',
     digitChar (t.day / 10), digitChar t.day, ' ',
     digitChar (t.hour / 10), digitChar t.hour, ':',
     digitChar (t.minute / 10), digitChar t.minute, ':',
     digitChar (t.second / 10), digitChar t.second]

/-- Does a string consist of exactly `YYYY-MM-DD HH:MM:SS`
(four digits, dash, two digits, dash, two digits, space, two digits,
colon, two digits, colon, two digits)? -/
def isTimestampFormat (s : String) : Bool :=
  match s.data with
  | [y1, y2, y3, y4, d1, mo1, mo2, d2, da1, da2, sp, h1, h2, c1, mi1, mi2, c2, s1, s2] =>
      y1.isDigit && y2.isDigit && y3.isDigit && y4.isDigit && d1 == '-' &&
      mo1.isDigit && mo2.isDigit && d2 == '-' &&
      da1.isDigit && da2.isDigit && sp == ' ' &&
      h1.isDigit && h2.isDigit && c1 == ':' &&
      mi1.isDigit && mi2.isDigit && c2 == ':' &&
      s1.isDigit && s2.isDigit
  | _ => false


/-- The filesystem, as the partial map from paths to file contents. -/
def FileSystem : Type := String → Option String

/-- Model of `PersonaFileManager.save_persona`: writes (mode `'w'`, truncating any
existing file) `persona` followed by `"\n\nGenerated on: "` and the
formatted current time to `output/<username>_persona.txt`, and returns
the new filesystem together with the returned `filepath`.
`ensure_output_directory` only creates the fixed directory `output`,
which the path-map model renders implicit. -/
def save_persona (persona : String) (username : String)
    (now : PyDateTime) (fs : FileSystem) : FileSystem × String :=
  let output_dir := "output"
  let filename := username ++ "_persona.txt"
  let filepath := output_dir ++ "/" ++ filename
  (fun p => if p = filepath
     then some (persona ++ "\n\nGenerated on: " ++ strftimeYmdHMS now)
     else fs p,
   filepath)

/-! Section: helper lemmas -/

theorem pyLen_append (s t : String) : pyLen (s ++ t) = pyLen s + pyLen t := by
  simp [pyLen, String.data_append]

theorem foldl_entries {α β : Type} (f : α → Option β) (l : List α) (acc : List β) :
    l.foldl (appendEntry f) acc = acc ++ l.filterMap f := by
  induction l generalizing acc with
  | nil => simp
  | cons x xs ih =>
      simp only [List.foldl_cons, List.filterMap_cons]
      cases h : f x with
      | none => simp [appendEntry, h, ih]
      | some s => simp [appendEntry, h, ih]

/-- The content list built by the excerpt builder is the qualifying posts
(in order) followed by the qualifying comments (in order). -/
theorem prepare_content_spec (ud : UserDataset) :
    prepare_content ud =
      joinSep "\n\n"
        ((ud.posts.take 50).filterMap postEntry ++
          (ud.comments.take 50).filterMap commentEntry) := by
  simp only [prepare_content]
  rw [foldl_entries, foldl_entries]
  simp

theorem joinSep_length_le (b : Nat) :
    ∀ l : List String, (∀ s ∈ l, pyLen s ≤ b) →
      pyLen (joinSep "\n\n" l) ≤ l.length * (b + 2)
  | [], _ => by
      simp only [joinSep, List.length_nil, Nat.zero_mul]
      decide
  | [s], h => by
      have hs := h s (by simp)
      simp only [joinSep, List.length_cons, List.length_nil]
      omega
  | s :: t :: rest, h => by
      have ih := joinSep_length_le b (t :: rest) (fun x hx => h x (by simp [hx]))
      have hs := h s (by simp)
      have h2 : pyLen "\n\n" = 2 := rfl
      have hmul : ((t :: rest).length + 1) * (b + 2) =
          (t :: rest).length * (b + 2) + (b + 2) := by ring
      simp only [joinSep]
      rw [pyLen_append, pyLen_append, h2]
      simp only [List.length_cons] at ih hmul ⊢
      omega

theorem reSearchCapture_some {lit : List Char} :
    ∀ {s n : List Char}, reSearchCapture lit s = some n →
      n ≠ [] ∧ ∀ c ∈ n, c ≠ '/'
  | [], n, h => by simp [reSearchCapture] at h
  | c :: rest, n, h => by
      rw [reSearchCapture] at h
      by_cases hp : lit.isPrefixOf (c :: rest) = true
      · simp only [hp, if_true] at h
        by_cases he :
            (((c :: rest).drop lit.length).takeWhile (fun ch => ch ≠ '/')).isEmpty = true
        · simp only [he, if_true] at h
          exact reSearchCapture_some h
        · simp only [he, if_false] at h
          obtain rfl : _ = n := Option.some.inj h
          refine ⟨?_, ?_⟩
          · intro hnil
            rw [hnil] at he
            simp at he
          · intro ch hch
            have := List.mem_takeWhile_imp hch
            simpa using this
      · simp only [hp, if_false] at h
        exact reSearchCapture_some h

theorem extractLoop_some {s n : List Char} :
    ∀ {ps : List (List Char)}, extractLoop ps s = some n →
      n ≠ [] ∧ ∀ c ∈ n, c ≠ '/'
  | [], h => by simp [extractLoop] at h
  | p :: ps, h => by
      rw [extractLoop] at h
      cases hr : reSearchCapture p s with
      | some m =>
          rw [hr] at h
          obtain rfl : m = n := Option.some.inj h
          exact reSearchCapture_some hr
      | none =>
          rw [hr] at h
          exact extractLoop_some h

theorem digitChar_isDigit (n : Nat) : (digitChar n).isDigit = true := by
  have h : n % 10 < 10 := Nat.mod_lt _ (by decide)
  unfold digitChar
  set m := n % 10 with hm
  interval_cases m <;> rfl

theorem strftime_isTimestampFormat (t : PyDateTime) :
    isTimestampFormat (strftimeYmdHMS t) = true := by
  unfold isTimestampFormat strftimeYmdHMS
  simp [digitChar_isDigit]

/-! Section: claims -/

/-- Claim C1: for every input string, the resolver tries the three
recognized URL patterns in the fixed priority order `/u/`, `/user/`,
`/users/` and returns the first pattern's capturing-group match; it
raises `InvalidProfileURL` (a `ValueError` in the source) exactly when no
pattern matches. -/
theorem resolver_first_match_or_error (url : String) :
    extract_username_from_url url = resolveSpec url ∧
    ((∃ e, extract_username_from_url url = .error e) ↔
      (reSearchCapture "reddit.com/u/".data url.data = none ∧
       reSearchCapture "reddit.com/user/".data url.data = none ∧
       reSearchCapture "reddit.com/users/".data url.data = none)) := by
  cases h1 : reSearchCapture "reddit.com/u/".data url.data <;>
  cases h2 : reSearchCapture "reddit.com/user/".data url.data <;>
  cases h3 : reSearchCapture "reddit.com/users/".data url.data <;>
    simp [extract_username_from_url, resolveSpec, extractLoop, url_patterns, h1, h2, h3]

/-- Witness for C1 at a concrete profile URL. -/
theorem resolver_first_match_or_error_witness :
    extract_username_from_url "https://www.reddit.com/user/alice/" =
      resolveSpec "https://www.reddit.com/user/alice/" ∧
    extract_username_from_url "https://www.reddit.com/user/alice/" = .ok "alice" :=
  ⟨(resolver_first_match_or_error "https://www.reddit.com/user/alice/").1, by rfl⟩

/-- Claim C2: collection is outer-fatal but inner-tolerant — the call
succeeds exactly when the user lookup succeeds; a failing posts (or
comments) fetch only yields an empty posts (or comments) list; in
particular a user with an erroring posts fetch and some valid comments
yields a dataset with `total_posts = 0` and `total_comments` equal to the
number of comments. -/
theorem collector_outer_fatal_inner_tolerant (username : String)
    (lookup : Except String Unit)
    (fp : Except String (List RPost)) (fc : Except String (List RComment)) :
    ((scrape_user_data username lookup fp fc).isOk = lookup.isOk) ∧
    (∀ e, lookup = .error e →
      scrape_user_data username lookup fp fc =
        .error ("Error scraping user data: " ++ e)) ∧
    (lookup = .ok () →
      scrape_user_data username lookup fp fc =
        .ok ⟨username, fp.toOption.getD [], fc.toOption.getD [],
          (fp.toOption.getD []).length, (fc.toOption.getD []).length⟩) ∧
    (∀ ep cs, lookup = .ok () → fp = .error ep → fc = .ok cs →
      scrape_user_data username lookup fp fc =
        .ok ⟨username, [], cs, 0, cs.length⟩) := by
  cases lookup <;> cases fp <;> cases fc <;>
    simp [scrape_user_data, Except.isOk, Except.toBool, Except.toOption]

/-- Witness for C2: an erroring posts fetch plus three valid comments
still yields a successful dataset with `total_posts = 0`,
`total_comments = 3`. -/
theorem collector_outer_fatal_inner_tolerant_witness :
    scrape_user_data "alice" (.ok ()) (.error "boom")
      (.ok [⟨"c1", "hello world", "s", 1, 0, "u"⟩,
            ⟨"c2", "nice to meet you", "s", 1, 0, "u"⟩,
            ⟨"c3", "good day to you", "s", 1, 0, "u"⟩]) =
      .ok ⟨"alice", [],
        [⟨"c1", "hello world", "s", 1, 0, "u"⟩,
         ⟨"c2", "nice to meet you", "s", 1, 0, "u"⟩,
         ⟨"c3", "good day to you", "s", 1, 0, "u"⟩], 0, 3⟩ :=
  (collector_outer_fatal_inner_tolerant "alice" (.ok ()) (.error "boom")
      (.ok [⟨"c1", "hello world", "s", 1, 0, "u"⟩,
            ⟨"c2", "nice to meet you", "s", 1, 0, "u"⟩,
            ⟨"c3", "good day to you", "s", 1, 0, "u"⟩])).2.2.2
    "boom" _ rfl rfl rfl

/-- Counterexample to claim C3 as stated: the claim says a post is
skipped only when it has neither a title nor self-text, but the code
skips every post whose title is empty, even when the self-text is
non-empty. -/
theorem post_skip_claim_cex :
    ¬ (∀ p : RPost, postEntry p = none →
        strTruthy p.title = false ∧ optTruthy p.selftext = false) := by
  intro h
  have hx := h ⟨"p1", "", some "hello world", "s", 0, 0, "u"⟩ (by rfl)
  exact absurd hx.2 (by decide)

/-- Claim C3 (amended): a post is included as title plus self-text
truncated to 500 characters when both title and self-text are truthy, as
title alone when the title is truthy and the self-text is empty or null,
and it is skipped exactly when its title is empty (regardless of
self-text). -/
theorem post_inclusion_amended (p : RPost) :
    (strTruthy p.title = true → optTruthy p.selftext = true →
      postEntry p =
        some ("POST [" ++ p.id ++ "]: " ++ p.title ++ " - " ++
          pySlice (p.selftext.getD "") 500)) ∧
    (strTruthy p.title = true → optTruthy p.selftext = false →
      postEntry p = some ("POST [" ++ p.id ++ "]: " ++ p.title)) ∧
    (postEntry p = none ↔ strTruthy p.title = false) := by
  cases ht : strTruthy p.title <;> cases hs : optTruthy p.selftext <;>
    simp [postEntry, ht, hs]

/-- Witness for C3 (amended): a post with empty-string self-text and a
non-empty title is included title-only. -/
theorem post_inclusion_amended_witness :
    postEntry ⟨"p", "T", some "", "s", 0, 0, "u"⟩ = some "POST [p]: T" := by
  have h := (post_inclusion_amended ⟨"p", "T", some "", "s", 0, 0, "u"⟩).2.1
    (by decide) (by decide)
  exact h.trans (by rfl)

/-- Claim C4: a comment is included in the excerpt iff its untruncated
body has strictly more than 10 characters, and the included body is
truncated to its first 500 characters. -/
theorem comment_inclusion (c : RComment) :
    ((∃ s, commentEntry c = some s) ↔ 10 < pyLen c.body) ∧
    (10 < pyLen c.body →
      commentEntry c = some ("COMMENT [" ++ c.id ++ "]: " ++ pySlice c.body 500)) ∧
    pyLen (pySlice c.body 500) ≤ 500 := by
  have hsl : pyLen (pySlice c.body 500) ≤ 500 := by
    simp only [pyLen, pySlice]
    exact List.length_take_le _ _
  have hmain : 10 < pyLen c.body →
      commentEntry c = some ("COMMENT [" ++ c.id ++ "]: " ++ pySlice c.body 500) := by
    intro h10
    have hne : c.body.data ≠ [] := by
      intro hd
      simp only [pyLen, hd, List.length_nil] at h10
      omega
    have ht : strTruthy c.body = true := by
      simp only [strTruthy, decide_eq_true_eq]
      exact hne
    simp [commentEntry, ht, h10]
  have hnone : ¬ 10 < pyLen c.body → commentEntry c = none := by
    intro h10
    have hd : decide (10 < pyLen c.body) = false := decide_eq_false h10
    simp [commentEntry, hd]
  refine ⟨⟨?_, fun h10 => ⟨_, hmain h10⟩⟩, hmain, hsl⟩
  rintro ⟨s, hs⟩
  by_cases h10 : 10 < pyLen c.body
  · exact h10
  · rw [hnone h10] at hs
    exact absurd hs (by simp)

/-- Witness for C4: an 11-character body is included, truncated form
shown. -/
theorem comment_inclusion_witness :
    10 < pyLen "elevenchars" ∧
    commentEntry ⟨"c2", "elevenchars", "s", 1, 0, "u"⟩ =
      some "COMMENT [c2]: elevenchars" := by
  refine ⟨by decide, ?_⟩
  have h := (comment_inclusion ⟨"c2", "elevenchars", "s", 1, 0, "u"⟩).2.1 (by decide)
  exact h.trans (by rfl)

/-- Claim C5: excerpt construction considers at most the first 50 posts
and first 50 comments in dataset order — truncating the dataset to its
first 50 posts and comments leaves the excerpt unchanged — and the
excerpt never holds more than 50 post items or 50 comment items. -/
theorem excerpt_bounded_counts (ud : UserDataset) :
    prepare_content ud =
      prepare_content ⟨ud.username, ud.posts.take 50, ud.comments.take 50,
        ud.total_posts, ud.total_comments⟩ ∧
    ((ud.posts.take 50).filterMap postEntry).length ≤ 50 ∧
    ((ud.comments.take 50).filterMap commentEntry).length ≤ 50 := by
  refine ⟨?_, ?_, ?_⟩
  · rw [prepare_content_spec, prepare_content_spec]
    simp [List.take_take]
  · exact le_trans (List.length_filterMap_le _ _) (List.length_take_le _ _)
  · exact le_trans (List.length_filterMap_le _ _) (List.length_take_le _ _)

/-- Claim C6: the excerpt is the blank-line-separated concatenation of
all qualifying posts (each of the form `POST [id]: ...`) followed by all
qualifying comments (each of the form `COMMENT [id]: ...`), each group in
dataset order. -/
theorem excerpt_layout (ud : UserDataset) :
    prepare_content ud =
      joinSep "\n\n" ((ud.posts.take 50).filterMap postEntry ++
        (ud.comments.take 50).filterMap commentEntry) ∧
    (∀ s ∈ (ud.posts.take 50).filterMap postEntry,
      ∃ p t, p ∈ ud.posts ∧ postEntry p = some s ∧
        s = "POST [" ++ p.id ++ "]: " ++ t) ∧
    (∀ s ∈ (ud.comments.take 50).filterMap commentEntry,
      ∃ c t, c ∈ ud.comments ∧ commentEntry c = some s ∧
        s = "COMMENT [" ++ c.id ++ "]: " ++ t) := by
  refine ⟨prepare_content_spec ud, ?_, ?_⟩
  · intro s hs
    obtain ⟨p, hp, he⟩ := List.mem_filterMap.mp hs
    have hp' : p ∈ ud.posts := List.mem_of_mem_take hp
    unfold postEntry at he
    by_cases h1 : (strTruthy p.title && optTruthy p.selftext) = true
    · rw [if_pos h1] at he
      obtain rfl := Option.some.inj he
      refine ⟨p, p.title ++ " - " ++ pySlice (p.selftext.getD "") 500, hp', ?_, ?_⟩
      · simp [postEntry, h1]
      · simp [String.append_assoc]
    · rw [if_neg h1] at he
      by_cases h2 : strTruthy p.title = true
      · rw [if_pos h2] at he
        obtain rfl := Option.some.inj he
        refine ⟨p, p.title, hp', ?_, rfl⟩
        simp only [h2, Bool.true_and] at h1
        simp [postEntry, h1, h2]
      · rw [if_neg h2] at he
        exact absurd he (by simp)
  · intro s hs
    obtain ⟨c, hc, he⟩ := List.mem_filterMap.mp hs
    have hc' : c ∈ ud.comments := List.mem_of_mem_take hc
    unfold commentEntry at he
    by_cases h1 : (strTruthy c.body && decide (10 < pyLen c.body)) = true
    · rw [if_pos h1] at he
      obtain rfl := Option.some.inj he
      refine ⟨c, pySlice c.body 500, hc', ?_, rfl⟩
      simp [commentEntry, h1]
    · rw [if_neg h1] at he
      exact absurd he (by simp)

/-- Witness for C6 at a concrete dataset. -/
theorem excerpt_layout_witness :
    prepare_content ⟨"u", [⟨"p1", "Hi", some "text", "s", 1, 0, "x"⟩],
        [⟨"c2", "elevenchars", "s", 1, 0, "x"⟩], 1, 1⟩ =
      "POST [p1]: Hi - text\n\nCOMMENT [c2]: elevenchars" := by
  have h := (excerpt_layout ⟨"u", [⟨"p1", "Hi", some "text", "s", 1, 0, "x"⟩],
      [⟨"c2", "elevenchars", "s", 1, 0, "x"⟩], 1, 1⟩).1
  exact h.trans (by rfl)

/-- Claim C7: saving writes `output/<username>_persona.txt` whose content
is the document text, a blank line, then the `Generated on:` stamp whose
timestamp has the format `YYYY-MM-DD HH:MM:SS`; re-saving for the same
username overwrites, so the latest save alone determines the content. -/
theorem writer_last_write_wins (persona username : String)
    (now : PyDateTime) (fs : FileSystem) :
    (save_persona persona username now fs).2 =
      "output/" ++ username ++ "_persona.txt" ∧
    (save_persona persona username now fs).1
        ((save_persona persona username now fs).2) =
      some (persona ++ "\n\nGenerated on: " ++ strftimeYmdHMS now) ∧
    isTimestampFormat (strftimeYmdHMS now) = true ∧
    ∀ persona2 now2,
      (save_persona persona2 username now2
          (save_persona persona username now fs).1).1
        ((save_persona persona username now fs).2) =
      some (persona2 ++ "\n\nGenerated on: " ++ strftimeYmdHMS now2) := by
  have hpath : ("output" ++ "/" ++ (username ++ "_persona.txt") : String) =
      "output/" ++ username ++ "_persona.txt" := by
    have h1 : ("output" ++ "/" : String) = "output/" := rfl
    rw [h1, String.append_assoc]
  refine ⟨?_, ?_, strftime_isTimestampFormat now, ?_⟩
  · simp only [save_persona]
    exact hpath
  · simp [save_persona]
  · intro persona2 now2
    simp [save_persona]

/-- Claim C8: the synthesizer submits exactly one chat request — fixed
system message, assembled prompt as user message, caller's model id,
`max_tokens = 4000`, `temperature = 0.3` — returns the first choice
verbatim on success, and wraps any API error as
`PersonaGenerationFailed` (`Error generating persona: ...`) with no
retry. -/
theorem synthesizer_single_request (model : String) (ud : UserDataset)
    (api : ChatRequest → Except String (List String)) :
    (generate_persona model ud api).2 =
      [⟨model, [⟨"system", systemMessage⟩, ⟨"user", buildPrompt ud⟩],
        4000, (3 : ℚ)/10⟩] ∧
    (∀ e,
      api ⟨model, [⟨"system", systemMessage⟩, ⟨"user", buildPrompt ud⟩],
          4000, (3 : ℚ)/10⟩ = .error e →
      (generate_persona model ud api).1 =
        .error ("Error generating persona: " ++ e)) ∧
    (∀ c rest,
      api ⟨model, [⟨"system", systemMessage⟩, ⟨"user", buildPrompt ud⟩],
          4000, (3 : ℚ)/10⟩ = .ok (c :: rest) →
      (generate_persona model ud api).1 = .ok c) := by
  cases hr : api ⟨model, [⟨"system", systemMessage⟩, ⟨"user", buildPrompt ud⟩],
      4000, (3 : ℚ)/10⟩ with
  | error e =>
      refine ⟨?_, ?_, ?_⟩
      · simp [generate_persona, hr]
      · intro e' he'
        obtain rfl := (Except.error.inj he')
        simp [generate_persona, hr]
      · intro c rest hc
        exact absurd hc (by simp)
  | ok choices =>
      cases choices with
      | nil =>
          refine ⟨?_, ?_, ?_⟩
          · simp [generate_persona, hr]
          · intro e' he'
            exact absurd he' (by simp)
          · intro c rest hc
            exact absurd (Except.ok.inj hc) (by simp)
      | cons c rest =>
          refine ⟨?_, ?_, ?_⟩
          · simp [generate_persona, hr]
          · intro e' he'
            exact absurd he' (by simp)
          · intro c' rest' hc
            obtain ⟨rfl, rfl⟩ := List.cons.inj (Except.ok.inj hc)
            simp [generate_persona, hr]

/-- Witness for C8: a stub API returning one choice `PERSONA` yields
exactly that text. -/
theorem synthesizer_single_request_witness :
    (generate_persona "llama3-70b-8192" ⟨"u", [], [], 0, 0⟩
      (fun _ => .ok ["PERSONA"])).1 = .ok "PERSONA" :=
  (synthesizer_single_request "llama3-70b-8192" ⟨"u", [], [], 0, 0⟩
      (fun _ => .ok ["PERSONA"])).2.2 "PERSONA" [] rfl

theorem data_mk (l : List Char) : (String.mk l).data = l := rfl

theorem prepare_content_single (u : String) (p : RPost) (np nc : Nat) (s : String)
    (h : postEntry p = some s) :
    prepare_content ⟨u, [p], [], np, nc⟩ = s := by
  rw [prepare_content_spec]
  rw [show List.take 50 [p] = [p] from rfl]
  simp [List.filterMap_cons, h, joinSep]

/-- Counterexample to claim C9 as stated: the excerpt's size is NOT
bounded by any constant independent of the dataset contents, because the
titles of included posts (and the item ids) are embedded untruncated: a
single post whose title has `C + 1` characters already defeats any
proposed bound `C`. -/
theorem excerpt_constant_bound_cex :
    ¬ ∃ C : Nat, ∀ ud : UserDataset, pyLen (prepare_content ud) ≤ C := by
  rintro ⟨C, h⟩
  have ht : strTruthy (String.mk (List.replicate (C + 1) 'a')) = true := by
    simp [strTruthy]
  have he : postEntry ⟨"p", String.mk (List.replicate (C + 1) 'a'), none, "s", 0, 0, "x"⟩ =
      some ("POST [" ++ "p" ++ "]: " ++ String.mk (List.replicate (C + 1) 'a')) := by
    simp [postEntry, ht, optTruthy]
  have hx := h ⟨"u",
    [⟨"p", String.mk (List.replicate (C + 1) 'a'), none, "s", 0, 0, "x"⟩], [], 1, 0⟩
  rw [prepare_content_single "u" _ 1 0 _ he] at hx
  rw [pyLen_append] at hx
  have h1 : pyLen ("POST [" ++ "p" ++ "]: ") = 10 := rfl
  have h2 : pyLen (String.mk (List.replicate (C + 1) 'a')) = C + 1 := by
    simp [pyLen]
  omega

theorem postEntry_length_le (p : RPost) (s : String) (h : postEntry p = some s) :
    pyLen s ≤ 512 + pyLen p.id + pyLen p.title := by
  unfold postEntry at h
  by_cases h1 : (strTruthy p.title && optTruthy p.selftext) = true
  · rw [if_pos h1] at h
    obtain rfl := Option.some.inj h
    rw [pyLen_append, pyLen_append, pyLen_append, pyLen_append, pyLen_append]
    have ha : pyLen "POST [" = 6 := rfl
    have hb : pyLen "]: " = 3 := rfl
    have hd : pyLen " - " = 3 := rfl
    have hsl : pyLen (pySlice (p.selftext.getD "") 500) ≤ 500 := by
      simp only [pyLen, pySlice, data_mk]
      exact List.length_take_le _ _
    omega
  · rw [if_neg h1] at h
    by_cases h2 : strTruthy p.title = true
    · rw [if_pos h2] at h
      obtain rfl := Option.some.inj h
      rw [pyLen_append, pyLen_append, pyLen_append]
      have ha : pyLen "POST [" = 6 := rfl
      have hb : pyLen "]: " = 3 := rfl
      omega
    · rw [if_neg h2] at h
      exact absurd h (by simp)

theorem commentEntry_length_le (c : RComment) (s : String) (h : commentEntry c = some s) :
    pyLen s ≤ 512 + pyLen c.id := by
  unfold commentEntry at h
  by_cases h1 : (strTruthy c.body && decide (10 < pyLen c.body)) = true
  · rw [if_pos h1] at h
    obtain rfl := Option.some.inj h
    rw [pyLen_append, pyLen_append, pyLen_append]
    have ha : pyLen "COMMENT [" = 9 := rfl
    have hb : pyLen "]: " = 3 := rfl
    have hsl : pyLen (pySlice c.body 500) ≤ 500 := by
      simp only [pyLen, pySlice, data_mk]
      exact List.length_take_le _ _
    omega
  · rw [if_neg h1] at h
    exact absurd h (by simp)

/-- Claim C9 (amended): the excerpt is bounded by a constant apart from
the untruncated ids and titles of included items: if every item id has
at most `I` characters and every post title at most `T` characters, the
excerpt has at most `100 * (514 + I + T)` characters (at most 50 posts
and 50 comments, each included body or self-text fragment limited to 500
characters). -/
theorem excerpt_size_amended (ud : UserDataset) (I T : Nat)
    (hp : ∀ p ∈ ud.posts, pyLen p.id ≤ I ∧ pyLen p.title ≤ T)
    (hc : ∀ c ∈ ud.comments, pyLen c.id ≤ I) :
    pyLen (prepare_content ud) ≤ 100 * (514 + I + T) := by
  rw [prepare_content_spec]
  have hball : ∀ s ∈ (ud.posts.take 50).filterMap postEntry ++
      (ud.comments.take 50).filterMap commentEntry, pyLen s ≤ 512 + I + T := by
    intro s hs
    rcases List.mem_append.mp hs with hs | hs
    · obtain ⟨p, hp', he⟩ := List.mem_filterMap.mp hs
      have hle := postEntry_length_le p s he
      have hb := hp p (List.mem_of_mem_take hp')
      omega
    · obtain ⟨c, hc', he⟩ := List.mem_filterMap.mp hs
      have hle := commentEntry_length_le c s he
      have hb := hc c (List.mem_of_mem_take hc')
      omega
  have hlen : ((ud.posts.take 50).filterMap postEntry ++
      (ud.comments.take 50).filterMap commentEntry).length ≤ 100 := by
    rw [List.length_append]
    have l1 := le_trans (List.length_filterMap_le postEntry (ud.posts.take 50))
      (List.length_take_le 50 ud.posts)
    have l2 := le_trans (List.length_filterMap_le commentEntry (ud.comments.take 50))
      (List.length_take_le 50 ud.comments)
    omega
  have hjoin := joinSep_length_le (512 + I + T) _ hball
  have hm := Nat.mul_le_mul_right (512 + I + T + 2) hlen
  have heq : 100 * (512 + I + T + 2) = 100 * (514 + I + T) := by ring
  omega

/-- Witness for C9 (amended) at a concrete dataset with 1-character ids
and titles. -/
theorem excerpt_size_amended_witness :
    pyLen (prepare_content ⟨"u", [⟨"p", "T", some "body text here", "s", 0, 0, "x"⟩],
      [⟨"c", "elevenchars", "s", 0, 0, "x"⟩], 1, 1⟩) ≤ 100 * (514 + 1 + 1) :=
  excerpt_size_amended _ 1 1 (by decide) (by decide)

/-- Claim C10: a username returned by the resolver is non-empty and
contains no `/`, so the file name `<username>_persona.txt` contains no
`/` and the save path is a single file name directly inside the fixed
`output` directory. -/
theorem username_pathsafe (url name : String)
    (h : extract_username_from_url url = .ok name) :
    name ≠ "" ∧ (∀ c ∈ name.data, c ≠ '/') ∧
    (∀ c ∈ (name ++ "_persona.txt").data, c ≠ '/') ∧
    (∀ persona now fs, (save_persona persona name now fs).2 =
      "output/" ++ (name ++ "_persona.txt")) := by
  unfold extract_username_from_url at h
  cases hl : extractLoop url_patterns url.data with
  | none =>
      rw [hl] at h
      exact absurd h (by simp)
  | some n =>
      rw [hl] at h
      obtain rfl := Except.ok.inj h
      obtain ⟨hne, hslash⟩ := extractLoop_some hl
      refine ⟨?_, ?_, ?_, ?_⟩
      · intro h0
        apply hne
        have hd : (String.mk n).data = ("" : String).data := by rw [h0]
        rw [data_mk] at hd
        simpa using hd
      · intro c hc
        rw [data_mk] at hc
        exact hslash c hc
      · intro c hc
        rw [String.data_append, data_mk] at hc
        rcases List.mem_append.mp hc with hc | hc
        · exact hslash c hc
        · exact (by decide : ∀ ch ∈ ("_persona.txt" : String).data, ch ≠ '/') c hc
      · intro persona now fs
        simp only [save_persona]
        rw [show ("output" ++ "/" : String) = "output/" from rfl]

/-- Witness for C10 at a concrete URL. -/
theorem username_pathsafe_witness :
    ("bob" : String) ≠ "" ∧ (∀ c ∈ ("bob" : String).data, c ≠ '/') ∧
    (∀ c ∈ (("bob" : String) ++ "_persona.txt").data, c ≠ '/') ∧
    (∀ persona now fs, (save_persona persona "bob" now fs).2 =
      "output/" ++ ("bob" ++ "_persona.txt")) :=
  username_pathsafe "reddit.com/u/bob" "bob" (by rfl)
